import Mathlib

/-!
Formal model of `scraper_proxy.py`, the MFLIX scraper proxy.

The program is a single Flask endpoint `/fetch` that fetches a caller-supplied
URL through a `cloudscraper` session, detects Cloudflare challenge pages by
substring markers, retries once with a freshly constructed fallback session on
detection, and wraps the outcome in a JSON envelope.

We embed the handler `fetch_page` as a pure function.  All sources of
nondeterminism are explicit inputs:
  * the random catalog indices drawn by `random.choice` (`uaIdx`, `refIdx`);
  * the outcome of the primary origin GET (`primaryResult`);
  * the outcome of the (potential) retry GET (`retryResult`), consulted only
    when the challenge detector fires on the primary body.
Module-level mutable state (the persistent `scraper` session whose headers are
updated in place) is threaded as an explicit `ServerState`.  Every origin GET
the handler would issue is recorded in an `OriginRequest` trace, carrying the
session it went through, the target URL, the timeout and the headers.
-/

namespace ScraperProxy

/-- The browser/platform profile dictionary handed to
`cloudscraper.create_scraper` (browser family, platform, mobile/desktop flags,
and the `delay` argument in seconds). -/
structure BrowserProfile where
  browser : String
  platform : String
  mobile : Bool
  desktop : Bool
  delay : Nat
deriving DecidableEq

/-- Profile of the module-level persistent session
(`{'browser': 'chrome', 'platform': 'android', 'mobile': True}`, `delay=3`). -/
def primaryProfile : BrowserProfile :=
  { browser := "chrome", platform := "android", mobile := true, desktop := false, delay := 3 }

/-- Profile of the fallback session constructed inside the retry branch
(`{'browser': 'chrome', 'platform': 'windows', 'desktop': True}`, `delay=5`). -/
def fallbackProfile : BrowserProfile :=
  { browser := "chrome", platform := "windows", mobile := false, desktop := true, delay := 5 }

/-- A `cloudscraper` session: the profile it was created with and its current
header map (the library-internal default headers are abstracted as the empty
map; `fetch_page` overwrites the identity headers before the primary GET). -/
structure Session where
  profile : BrowserProfile
  headers : List (String × String)
deriving DecidableEq

/-- Model of `cloudscraper.create_scraper(browser=profile, delay=...)`. -/
def createSession (p : BrowserProfile) : Session :=
  { profile := p, headers := [] }

/-- The module-level persistent session, constructed once at import time:
`scraper = cloudscraper.create_scraper(browser={'chrome','android',mobile}, delay=3)`. -/
def scraper : Session := createSession primaryProfile

/-- Process state threaded through the handler: the shared `scraper` binding. -/
structure ServerState where
  scraper : Session
deriving DecidableEq

/-- The state at process start. -/
def initialState : ServerState := { scraper := scraper }

/-- The hardcoded `USER_AGENTS` catalog. -/
def USER_AGENTS : List String :=
  [ "Mozilla/5.0 (Linux; Android 14; SM-S928B) AppleWebKit/537.36 (KHTML, like Gecko) Chrome/125.0.0.0 Mobile Safari/537.36",
    "Mozilla/5.0 (Linux; Android 13; Pixel 7) AppleWebKit/537.36 (KHTML, like Gecko) Chrome/124.0.0.0 Mobile Safari/537.36",
    "Mozilla/5.0 (iPhone; CPU iPhone OS 17_5 like Mac OS X) AppleWebKit/605.1.15 (KHTML, like Gecko) Version/17.5 Mobile/15E148 Safari/604.1",
    "Mozilla/5.0 (Windows NT 10.0; Win64; x64) AppleWebKit/537.36 (KHTML, like Gecko) Chrome/126.0.0.0 Safari/537.36",
    "Mozilla/5.0 (Macintosh; Intel Mac OS X 10_15_7) AppleWebKit/537.36 (KHTML, like Gecko) Chrome/125.0.0.0 Safari/537.36" ]

/-- The hardcoded `REFERERS` catalog. -/
def REFERERS : List String :=
  [ "https://www.google.com/",
    "https://www.google.co.in/",
    "https://www.bing.com/",
    "https://duckduckgo.com/" ]

/-- Model of `random.choice(l)`: the element at the uniformly drawn index `i`.
The draw itself (which index comes up) is an input of the model. -/
def randomChoice {α : Type} (l : List α) (i : Fin l.length) : α := l.get i

/-- The eight header pairs written by `scraper.headers.update({...})`, with the
two randomized entries instantiated at the drawn indices. -/
def identityHeaders (ua : Fin USER_AGENTS.length) (rf : Fin REFERERS.length) :
    List (String × String) :=
  [ ("User-Agent", randomChoice USER_AGENTS ua),
    ("Referer", randomChoice REFERERS rf),
    ("Accept", "text/html,application/xhtml+xml,application/xml;q=0.9,image/avif,image/webp,image/apng,*/*;q=0.8"),
    ("Accept-Language", "en-US,en;q=0.9,hi;q=0.8"),
    ("Sec-Fetch-Dest", "document"),
    ("Sec-Fetch-Mode", "navigate"),
    ("Sec-Fetch-Site", "cross-site"),
    ("Upgrade-Insecure-Requests", "1") ]

/-- Write one key in a header map, Python-dict style: overwrite in place if the
key exists, append otherwise. -/
def setHeader (m : List (String × String)) (k v : String) : List (String × String) :=
  if m.any (fun p => p.1 == k) then
    m.map (fun p => if p.1 == k then (k, v) else p)
  else
    m ++ [(k, v)]

/-- Model of `dict.update`: write every pair of `upd` into `m`, left to right. -/
def updateHeaders (m : List (String × String)) (upd : List (String × String)) :
    List (String × String) :=
  upd.foldl (fun acc p => setHeader acc p.1 p.2) m

/-- Look a key up in a header map. -/
def getHeader (m : List (String × String)) (k : String) : Option String :=
  (m.find? (fun p => p.1 == k)).map Prod.snd

/-- The fixed marker list the handler scans the body for. -/
def CHALLENGE_MARKERS : List String :=
  [ "cf-challenge",
    "Just a moment...",
    "Checking your browser",
    "cf-turnstile",
    "challenges.cloudflare.com" ]

/-- Python `marker in body`: case-sensitive substring containment. -/
def containsMarker (body marker : String) : Bool :=
  decide (marker.toList <:+: body.toList)

/-- The challenge detector: `any(marker in response.text for marker in [...])`. -/
def is_cf_challenge (body : String) : Bool :=
  CHALLENGE_MARKERS.any (containsMarker body)

/-- An origin HTTP response as the handler reads it: `response.text`,
`response.status_code`, `response.url` (final URL after redirects). -/
structure Response where
  text : String
  status_code : Nat
  url : String
deriving DecidableEq

/-- The exceptions an origin GET can raise, split exactly as the two `except`
clauses split them: `cloudscraper.exceptions.CloudflareChallengeError` versus
every other `Exception`. -/
inductive FetchExc where
  | cloudflareChallenge (detail : String)
  | other (msg : String)
deriving DecidableEq

/-- Python `str(e)`. -/
def FetchExc.str : FetchExc → String
  | .cloudflareChallenge d => d
  | .other m => m

/-- The JSON body of a handler reply: either the error envelope
`{"status":"error","message":...}` or the success envelope
`{"status":"success","html":...,"status_code":...,"url":...,"content_length":...}`. -/
inductive Envelope where
  | error (message : String)
  | success (html : String) (status_code : Nat) (url : String) (content_length : Nat)
deriving DecidableEq

/-- A handler reply: HTTP status code plus JSON body. -/
structure HttpResult where
  code : Nat
  body : Envelope
deriving DecidableEq

/-- Which session an origin GET went through: the shared module-level `scraper`,
or a freshly constructed fallback (`scraper2`). -/
inductive SessionKind where
  | primary
  | fallback
deriving DecidableEq

/-- One origin GET as issued by the handler: the session it used, that
session's profile, the target URL, the timeout in seconds, and the session
headers at the moment of the call.  (`allow_redirects=True` on both calls.) -/
structure OriginRequest where
  kind : SessionKind
  profile : BrowserProfile
  url : String
  timeout : Nat
  headers : List (String × String)
deriving DecidableEq

/-- Everything one call to the handler produces: the HTTP reply, the process
state afterwards, and the trace of origin GETs issued during the call. -/
structure FetchOutcome where
  result : HttpResult
  state : ServerState
  trace : List OriginRequest
deriving DecidableEq

/-- The 400 reply for a missing/empty `url` parameter. -/
def missingUrlResult : HttpResult :=
  { code := 400, body := .error "url parameter required" }

/-- The two `except` clauses: `CloudflareChallengeError` becomes a 503 with the
prefixed message, any other exception a 500 with `str(e)` verbatim. -/
def exceptionResult (e : FetchExc) : HttpResult :=
  match e with
  | .cloudflareChallenge _ => { code := 503, body := .error ("Cloudflare challenge failed: " ++ e.str) }
  | .other _ => { code := 500, body := .error e.str }

/-- The 200 success reply built from the final response object. -/
def successResult (r : Response) : HttpResult :=
  { code := 200, body := .success r.text r.status_code r.url r.text.length }

/-- The `/fetch` handler.  `urlParam` is `request.args.get('url')`; `uaIdx` and
`refIdx` are the indices drawn by the two `random.choice` calls;
`primaryResult` is what `scraper.get(url, timeout=20)` yields, `retryResult`
what `scraper2.get(url, timeout=25)` would yield (consulted only when the
challenge detector fires on the primary body). -/
def fetch_page (st : ServerState) (urlParam : Option String)
    (uaIdx : Fin USER_AGENTS.length) (refIdx : Fin REFERERS.length)
    (primaryResult : Except FetchExc Response)
    (retryResult : Except FetchExc Response) : FetchOutcome :=
  match urlParam with
  | none => { result := missingUrlResult, state := st, trace := [] }
  | some url =>
    if url.isEmpty then
      { result := missingUrlResult, state := st, trace := [] }
    else
      let sess : Session :=
        { st.scraper with headers := updateHeaders st.scraper.headers (identityHeaders uaIdx refIdx) }
      let st1 : ServerState := { scraper := sess }
      let req1 : OriginRequest :=
        { kind := .primary, profile := sess.profile, url := url, timeout := 20, headers := sess.headers }
      match primaryResult with
      | .error e => { result := exceptionResult e, state := st1, trace := [req1] }
      | .ok response =>
        if is_cf_challenge response.text then
          let scraper2 : Session := createSession fallbackProfile
          let req2 : OriginRequest :=
            { kind := .fallback, profile := scraper2.profile, url := url, timeout := 25,
              headers := scraper2.headers }
          match retryResult with
          | .error e => { result := exceptionResult e, state := st1, trace := [req1, req2] }
          | .ok response2 =>
            { result := successResult response2, state := st1, trace := [req1, req2] }
        else
          { result := successResult response, state := st1, trace := [req1] }

/-! ### Header-map lemmas -/

/-- Looking up a key in a cons cell: take the head if its key matches. -/
theorem getHeader_cons (p : String × String) (t : List (String × String)) (k : String) :
    getHeader (p :: t) k = if p.1 == k then some p.2 else getHeader t k := by
  by_cases h : (p.1 == k) = true
  · simp [getHeader, List.find?_cons_of_pos, h]
  · simp [getHeader, List.find?_cons_of_neg, h]

/-- In-place overwrite of key `k` makes `k` look up to the new value. -/
theorem getHeader_map_self (t : List (String × String)) (k v : String)
    (ht : (t.any fun q => q.1 == k) = true) :
    getHeader (t.map fun q => if q.1 == k then (k, v) else q) k = some v := by
  induction t with
  | nil => simp at ht
  | cons q s ih =>
    by_cases hq : q.1 = k
    · simp [getHeader_cons, hq]
    · have hs : (s.any fun q => q.1 == k) = true := by
        simpa [List.any_cons, hq] using ht
      simp [getHeader_cons, hq]
      simpa using ih hs

/-- A prefix holding no binding for `k` is transparent to lookup of `k`. -/
theorem getHeader_append_right (t : List (String × String)) (rest : List (String × String))
    (k : String) (ht : (t.any fun q => q.1 == k) = false) :
    getHeader (t ++ rest) k = getHeader rest k := by
  induction t with
  | nil => rfl
  | cons q s ih =>
    have ht2 := List.any_eq_false.mp ht
    have hq : ¬ q.1 = k := by simpa using ht2 q (List.mem_cons_self q s)
    have hs : (s.any fun q => q.1 == k) = false :=
      List.any_eq_false.mpr fun x hx => ht2 x (List.mem_cons_of_mem q hx)
    simp [List.cons_append, getHeader_cons, hq, ih hs]

/-- Appending a binding for a different key does not change lookup of `k`. -/
theorem getHeader_append_single_ne (t : List (String × String)) (kx v k : String)
    (hne : ¬ kx = k) :
    getHeader (t ++ [(kx, v)]) k = getHeader t k := by
  induction t with
  | nil => simp [getHeader_cons, hne]
  | cons q s ih => simp [List.cons_append, getHeader_cons, ih]

/-- After writing key `k`, looking up `k` yields the written value. -/
theorem getHeader_setHeader_self (m : List (String × String)) (k v : String) :
    getHeader (setHeader m k v) k = some v := by
  unfold setHeader
  cases hm : (m.any fun p => p.1 == k) with
  | true => simpa using getHeader_map_self m k v hm
  | false =>
    simp only [Bool.false_eq_true, if_false]
    rw [getHeader_append_right m _ k hm]
    simp [getHeader_cons]

/-- In-place overwrite of key `kx` does not change lookup of another key. -/
theorem getHeader_map_ne (t : List (String × String)) (k kx v : String)
    (hne : ¬ kx = k) :
    getHeader (t.map fun q => if q.1 == kx then (kx, v) else q) k = getHeader t k := by
  induction t with
  | nil => rfl
  | cons q s ih =>
    by_cases hq : q.1 = kx
    · have hqk : ¬ q.1 = k := by rw [hq]; exact hne
      simp [getHeader_cons, hq, hqk, hne]
      simpa using ih
    · have ih2 := ih
      simp only [beq_iff_eq] at ih2
      simp [getHeader_cons, hq, ih2]

/-- Writing key `kx` does not change what a different key `k` looks up to. -/
theorem getHeader_setHeader_ne (m : List (String × String)) (k kx v : String)
    (hne : ¬ kx = k) :
    getHeader (setHeader m kx v) k = getHeader m k := by
  unfold setHeader
  cases hm : (m.any fun p => p.1 == kx) with
  | true => simpa using getHeader_map_ne m k kx v hne
  | false =>
    simp only [Bool.false_eq_true, if_false]
    exact getHeader_append_single_ne m kx v k hne

/-- After the identity update, the session's User-Agent header is the drawn
user-agent, whatever headers were present before. -/
theorem getHeader_update_ua (m : List (String × String))
    (ua : Fin USER_AGENTS.length) (rf : Fin REFERERS.length) :
    getHeader (updateHeaders m (identityHeaders ua rf)) "User-Agent"
      = some (randomChoice USER_AGENTS ua) := by
  simp only [updateHeaders, identityHeaders, List.foldl]
  rw [getHeader_setHeader_ne _ _ _ _ (by decide), getHeader_setHeader_ne _ _ _ _ (by decide),
    getHeader_setHeader_ne _ _ _ _ (by decide), getHeader_setHeader_ne _ _ _ _ (by decide),
    getHeader_setHeader_ne _ _ _ _ (by decide), getHeader_setHeader_ne _ _ _ _ (by decide),
    getHeader_setHeader_ne _ _ _ _ (by decide)]
  exact getHeader_setHeader_self _ _ _

/-- After the identity update, the session's Referer header is the drawn
referer, whatever headers were present before. -/
theorem getHeader_update_referer (m : List (String × String))
    (ua : Fin USER_AGENTS.length) (rf : Fin REFERERS.length) :
    getHeader (updateHeaders m (identityHeaders ua rf)) "Referer"
      = some (randomChoice REFERERS rf) := by
  simp only [updateHeaders, identityHeaders, List.foldl]
  rw [getHeader_setHeader_ne _ _ _ _ (by decide), getHeader_setHeader_ne _ _ _ _ (by decide),
    getHeader_setHeader_ne _ _ _ _ (by decide), getHeader_setHeader_ne _ _ _ _ (by decide),
    getHeader_setHeader_ne _ _ _ _ (by decide), getHeader_setHeader_ne _ _ _ _ (by decide)]
  exact getHeader_setHeader_self _ _ _

/-! ### Claim theorems -/

/-- C1: every call to the `/fetch` handler issues at most two origin GETs (one
primary attempt plus at most one retry), and when the primary attempt yields a
body in which the challenge detector finds no marker, exactly one origin GET
is issued. -/
theorem c1_at_most_two_origin_requests (st : ServerState) (urlParam : Option String)
    (ua : Fin USER_AGENTS.length) (rf : Fin REFERERS.length)
    (p r : Except FetchExc Response) :
    (fetch_page st urlParam ua rf p r).trace.length ≤ 2 ∧
    (∀ url resp, urlParam = some url → url.isEmpty = false → p = .ok resp →
      is_cf_challenge resp.text = false →
      (fetch_page st urlParam ua rf p r).trace.length = 1) := by
  constructor
  · cases urlParam with
    | none => simp [fetch_page]
    | some url =>
      by_cases hu : url.isEmpty
      · simp [fetch_page, hu]
      · cases p with
        | error e => simp [fetch_page, hu]
        | ok resp =>
          by_cases hc : is_cf_challenge resp.text
          · cases r with
            | error e => simp [fetch_page, hu, hc]
            | ok resp2 => simp [fetch_page, hu, hc]
          · simp [fetch_page, hu, hc]
  · rintro url resp rfl hne rfl hc
    simp [fetch_page, hne, hc]

/-- Witness for C1: a clean primary response leads to a single origin GET. -/
theorem c1_at_most_two_origin_requests_witness :
    (fetch_page initialState (some "https://example.com/") ⟨0, by decide⟩ ⟨0, by decide⟩
      (.ok { text := "<html>ok</html>", status_code := 200, url := "https://example.com/" })
      (.ok { text := "x", status_code := 200, url := "x" })).trace.length = 1 :=
  (c1_at_most_two_origin_requests initialState (some "https://example.com/")
      ⟨0, by decide⟩ ⟨0, by decide⟩
      (.ok { text := "<html>ok</html>", status_code := 200, url := "https://example.com/" })
      (.ok { text := "x", status_code := 200, url := "x" })).2
    "https://example.com/"
    { text := "<html>ok</html>", status_code := 200, url := "https://example.com/" }
    rfl (by decide) rfl (by decide)

/-- C2: when the detector fires on the primary body, the single retry GET
targets the original caller-supplied `url` (not the redirected final URL of
the first attempt), goes through a freshly constructed fallback session with
the distinct fallback profile, and the retry outcome unconditionally replaces
the primary one — when the retry yields a response, that response is returned
whether or not its body also carries a challenge marker. -/
theorem c2_retry_original_url_replaces_result (st : ServerState) (url : String)
    (ua : Fin USER_AGENTS.length) (rf : Fin REFERERS.length)
    (resp : Response) (r : Except FetchExc Response)
    (hne : url.isEmpty = false) (hch : is_cf_challenge resp.text = true) :
    (fetch_page st (some url) ua rf (.ok resp) r).trace =
      [ { kind := .primary, profile := st.scraper.profile, url := url, timeout := 20,
          headers := updateHeaders st.scraper.headers (identityHeaders ua rf) },
        { kind := .fallback, profile := fallbackProfile, url := url, timeout := 25,
          headers := (createSession fallbackProfile).headers } ] ∧
    fallbackProfile ≠ primaryProfile ∧
    (∀ resp2, r = .ok resp2 →
      (fetch_page st (some url) ua rf (.ok resp) r).result = successResult resp2) := by
  refine ⟨?_, by decide, ?_⟩
  · cases r with
    | error e => simp [fetch_page, hne, hch, createSession]
    | ok resp2 => simp [fetch_page, hne, hch, createSession]
  · rintro resp2 rfl
    simp [fetch_page, hne, hch]

/-- Witness for C2: a challenge marker in the primary body at a concrete
input, with the retry body itself still carrying a marker. -/
theorem c2_retry_original_url_replaces_result_witness :
    (fetch_page initialState (some "https://example.com/") ⟨0, by decide⟩ ⟨0, by decide⟩
      (.ok { text := "Just a moment...", status_code := 503, url := "https://cdn.example.com/x" })
      (.ok { text := "cf-turnstile", status_code := 403, url := "https://example.com/" })).result
      = successResult { text := "cf-turnstile", status_code := 403, url := "https://example.com/" } :=
  (c2_retry_original_url_replaces_result initialState "https://example.com/"
      ⟨0, by decide⟩ ⟨0, by decide⟩
      { text := "Just a moment...", status_code := 503, url := "https://cdn.example.com/x" }
      (.ok { text := "cf-turnstile", status_code := 403, url := "https://example.com/" })
      (by decide) (by decide)).2.2
    { text := "cf-turnstile", status_code := 403, url := "https://example.com/" } rfl

/-- C3: every exception of the fetch cycle is converted, never propagated: a
`CloudflareChallengeError` becomes HTTP 503 with message `"Cloudflare
challenge failed: "` followed by the exception detail, and any other exception
becomes HTTP 500 with the exception's string form verbatim — on the primary
attempt and on the retry alike. -/
theorem c3_exception_envelopes (st : ServerState) (url : String)
    (ua : Fin USER_AGENTS.length) (rf : Fin REFERERS.length)
    (p r : Except FetchExc Response) (hne : url.isEmpty = false) :
    (∀ e, p = .error e →
      (fetch_page st (some url) ua rf p r).result = exceptionResult e) ∧
    (∀ resp e, p = .ok resp → is_cf_challenge resp.text = true → r = .error e →
      (fetch_page st (some url) ua rf p r).result = exceptionResult e) ∧
    (∀ d, exceptionResult (.cloudflareChallenge d)
        = { code := 503, body := .error ("Cloudflare challenge failed: " ++ d) }) ∧
    (∀ m, exceptionResult (.other m) = { code := 500, body := .error m }) := by
  refine ⟨?_, ?_, fun d => rfl, fun m => rfl⟩
  · rintro e rfl
    simp [fetch_page, hne]
  · rintro resp e rfl hch rfl
    simp [fetch_page, hne, hch]

/-- Witness for C3: a challenge-specific exception on the primary attempt at a
concrete input yields the 503 envelope with the prefixed message. -/
theorem c3_exception_envelopes_witness :
    (fetch_page initialState (some "https://example.com/") ⟨0, by decide⟩ ⟨0, by decide⟩
      (.error (.cloudflareChallenge "Detected a Cloudflare version 2 challenge"))
      (.ok { text := "x", status_code := 200, url := "x" })).result
      = exceptionResult (.cloudflareChallenge "Detected a Cloudflare version 2 challenge") :=
  (c3_exception_envelopes initialState "https://example.com/" ⟨0, by decide⟩ ⟨0, by decide⟩
      (.error (.cloudflareChallenge "Detected a Cloudflare version 2 challenge"))
      (.ok { text := "x", status_code := 200, url := "x" }) (by decide)).1
    (.cloudflareChallenge "Detected a Cloudflare version 2 challenge") rfl

/-- C4: the challenge detector returns true iff the body contains at least one
of the five fixed markers as a case-sensitive substring, markers combined by
logical OR; a body containing none is never classified as a challenge. -/
theorem c4_detector_marker_disjunction (body : String) :
    is_cf_challenge body = true ↔
      ("cf-challenge".toList <:+: body.toList ∨
       "Just a moment...".toList <:+: body.toList ∨
       "Checking your browser".toList <:+: body.toList ∨
       "cf-turnstile".toList <:+: body.toList ∨
       "challenges.cloudflare.com".toList <:+: body.toList) := by
  rw [show is_cf_challenge body = CHALLENGE_MARKERS.any (containsMarker body) from rfl,
    List.any_eq_true]
  constructor
  · rintro ⟨m, hm, hc⟩
    rw [containsMarker, decide_eq_true_eq] at hc
    simp only [CHALLENGE_MARKERS, List.mem_cons, List.not_mem_nil, or_false] at hm
    rcases hm with rfl | rfl | rfl | rfl | rfl
    · exact Or.inl hc
    · exact Or.inr (Or.inl hc)
    · exact Or.inr (Or.inr (Or.inl hc))
    · exact Or.inr (Or.inr (Or.inr (Or.inl hc)))
    · exact Or.inr (Or.inr (Or.inr (Or.inr hc)))
  · rintro (h | h | h | h | h)
    · exact ⟨"cf-challenge", by simp [CHALLENGE_MARKERS],
        by rw [containsMarker, decide_eq_true_eq]; exact h⟩
    · exact ⟨"Just a moment...", by simp [CHALLENGE_MARKERS],
        by rw [containsMarker, decide_eq_true_eq]; exact h⟩
    · exact ⟨"Checking your browser", by simp [CHALLENGE_MARKERS],
        by rw [containsMarker, decide_eq_true_eq]; exact h⟩
    · exact ⟨"cf-turnstile", by simp [CHALLENGE_MARKERS],
        by rw [containsMarker, decide_eq_true_eq]; exact h⟩
    · exact ⟨"challenges.cloudflare.com", by simp [CHALLENGE_MARKERS],
        by rw [containsMarker, decide_eq_true_eq]; exact h⟩

/-- C5: a missing or empty `url` query parameter yields exactly the 400 error
envelope, the process state is untouched (no identity headers applied), and
the origin-request trace is empty. -/
theorem c5_missing_url_rejected (st : ServerState) (urlParam : Option String)
    (ua : Fin USER_AGENTS.length) (rf : Fin REFERERS.length)
    (p r : Except FetchExc Response)
    (h : urlParam = none ∨ urlParam = some "") :
    fetch_page st urlParam ua rf p r =
      { result := { code := 400, body := .error "url parameter required" },
        state := st, trace := [] } := by
  rcases h with rfl | rfl
  · rfl
  · rfl

/-- Witness for C5 at the concrete missing-parameter input. -/
theorem c5_missing_url_rejected_witness :
    fetch_page initialState none ⟨0, by decide⟩ ⟨0, by decide⟩
      (.ok { text := "x", status_code := 200, url := "x" })
      (.ok { text := "x", status_code := 200, url := "x" }) =
      { result := { code := 400, body := .error "url parameter required" },
        state := initialState, trace := [] } :=
  c5_missing_url_rejected initialState none ⟨0, by decide⟩ ⟨0, by decide⟩
    (.ok { text := "x", status_code := 200, url := "x" })
    (.ok { text := "x", status_code := 200, url := "x" }) (Or.inl rfl)

/-- C6: a fetch cycle that completes without an exception replies HTTP 200
with status success, `html` equal to the final attempt's body text,
`status_code` equal to the origin's status, `url` equal to the final
post-redirect URL, and `content_length` exactly the character length of the
`html` field (in every success envelope the handler ever produces). -/
theorem c6_success_envelope_shape (st : ServerState) (url : String)
    (ua : Fin USER_AGENTS.length) (rf : Fin REFERERS.length)
    (r : Except FetchExc Response) (hne : url.isEmpty = false) :
    (∀ resp, is_cf_challenge resp.text = false →
      (fetch_page st (some url) ua rf (.ok resp) r).result =
        { code := 200, body := .success resp.text resp.status_code resp.url resp.text.length }) ∧
    (∀ resp resp2, is_cf_challenge resp.text = true → r = .ok resp2 →
      (fetch_page st (some url) ua rf (.ok resp) r).result =
        { code := 200,
          body := .success resp2.text resp2.status_code resp2.url resp2.text.length }) ∧
    (∀ (p : Except FetchExc Response) (h : String) (sc : Nat) (u : String) (n : Nat),
      (fetch_page st (some url) ua rf p r).result.body = .success h sc u n →
      n = h.length) := by
  refine ⟨?_, ?_, ?_⟩
  · intro resp hc
    simp [fetch_page, hne, hc, successResult]
  · rintro resp resp2 hc rfl
    simp [fetch_page, hne, hc, successResult]
  · intro p h sc u n hbody
    cases p with
    | error e =>
      simp [fetch_page, hne] at hbody
      cases e <;> simp [exceptionResult] at hbody
    | ok resp =>
      by_cases hc : is_cf_challenge resp.text
      · cases r with
        | error e =>
          simp [fetch_page, hne, hc] at hbody
          cases e <;> simp [exceptionResult] at hbody
        | ok resp2 =>
          simp [fetch_page, hne, hc, successResult] at hbody
          obtain ⟨h1, h2, h3, h4⟩ := hbody
          rw [← h4, ← h1]
      · simp [fetch_page, hne, hc, successResult] at hbody
        obtain ⟨h1, h2, h3, h4⟩ := hbody
        rw [← h4, ← h1]

/-- Witness for C6: a clean single-attempt fetch at a concrete input. -/
theorem c6_success_envelope_shape_witness :
    (fetch_page initialState (some "https://example.com/") ⟨1, by decide⟩ ⟨1, by decide⟩
      (.ok { text := "<html>hello</html>", status_code := 200, url := "https://example.com/a" })
      (.ok { text := "x", status_code := 200, url := "x" })).result =
      { code := 200,
        body := .success "<html>hello</html>" 200 "https://example.com/a"
          ("<html>hello</html>".length) } :=
  (c6_success_envelope_shape initialState "https://example.com/" ⟨1, by decide⟩ ⟨1, by decide⟩
      (.ok { text := "x", status_code := 200, url := "x" }) (by decide)).1
    { text := "<html>hello</html>", status_code := 200, url := "https://example.com/a" }
    (by decide)

/-- C7: the primary session is the one constructed at process start with the
mobile Android Chrome profile and delay 3; the fallback session is constructed
only inside the retry path, carries the distinct desktop Windows profile with
delay 5, and using it never rebinds the shared session — after any call the
shared session's profile is exactly what it was before. -/
theorem c7_session_lifecycle (st : ServerState) (urlParam : Option String)
    (ua : Fin USER_AGENTS.length) (rf : Fin REFERERS.length)
    (p r : Except FetchExc Response) :
    initialState.scraper = createSession primaryProfile ∧
    primaryProfile =
      { browser := "chrome", platform := "android", mobile := true, desktop := false,
        delay := 3 } ∧
    fallbackProfile =
      { browser := "chrome", platform := "windows", mobile := false, desktop := true,
        delay := 5 } ∧
    primaryProfile ≠ fallbackProfile ∧
    (fetch_page st urlParam ua rf p r).state.scraper.profile = st.scraper.profile ∧
    (∀ req ∈ (fetch_page st urlParam ua rf p r).trace, req.kind = .fallback →
      req.profile = fallbackProfile ∧
      ∃ url resp, urlParam = some url ∧ p = .ok resp ∧ is_cf_challenge resp.text = true) := by
  refine ⟨rfl, rfl, rfl, by decide, ?_, ?_⟩
  · cases urlParam with
    | none => rfl
    | some url =>
      by_cases hu : url.isEmpty
      · simp [fetch_page, hu]
      · cases p with
        | error e => simp [fetch_page, hu]
        | ok resp =>
          by_cases hc : is_cf_challenge resp.text
          · cases r with
            | error e => simp [fetch_page, hu, hc]
            | ok resp2 => simp [fetch_page, hu, hc]
          · simp [fetch_page, hu, hc]
  · intro req hreq hkind
    cases urlParam with
    | none => simp [fetch_page] at hreq
    | some url =>
      by_cases hu : url.isEmpty
      · simp [fetch_page, hu] at hreq
      · cases p with
        | error e =>
          simp [fetch_page, hu] at hreq
          subst hreq
          simp at hkind
        | ok resp =>
          by_cases hc : is_cf_challenge resp.text
          · cases r with
            | error e =>
              simp [fetch_page, hu, hc] at hreq
              rcases hreq with rfl | rfl
              · simp at hkind
              · exact ⟨rfl, url, resp, rfl, rfl, hc⟩
            | ok resp2 =>
              simp [fetch_page, hu, hc] at hreq
              rcases hreq with rfl | rfl
              · simp at hkind
              · exact ⟨rfl, url, resp, rfl, rfl, hc⟩
          · simp [fetch_page, hu, hc] at hreq
            subst hreq
            simp at hkind

set_option maxHeartbeats 1600000 in
/-- Witness for C7: the fallback request of a concrete challenged call has the
fallback profile, and the challenge condition indeed held. -/
theorem c7_session_lifecycle_witness :
    ({ kind := .fallback, profile := fallbackProfile, url := "https://example.com/",
       timeout := 25, headers := [] } : OriginRequest).profile = fallbackProfile ∧
    ∃ url resp, (some "https://example.com/") = some url ∧
      (Except.ok { text := "Just a moment...", status_code := 503, url := "u" }
        : Except FetchExc Response) = .ok resp ∧
      is_cf_challenge resp.text = true :=
  (c7_session_lifecycle initialState (some "https://example.com/") ⟨0, by decide⟩ ⟨0, by decide⟩
      (.ok { text := "Just a moment...", status_code := 503, url := "u" })
      (.ok { text := "ok", status_code := 200, url := "https://example.com/" })).2.2.2.2.2
    { kind := .fallback, profile := fallbackProfile, url := "https://example.com/",
      timeout := 25, headers := [] }
    (by decide) rfl

set_option maxHeartbeats 6400000 in
/-- C8: identity selection is a total selection over the fixed catalogs — 5
user agents and 4 referers — re-drawn on every call: the primary GET of a call
made with drawn indices `ua`, `rf` carries exactly the user-agent and referer
at those indices, whatever headers the shared session carried before. -/
theorem c8_identity_selection (st : ServerState) (url : String)
    (ua : Fin USER_AGENTS.length) (rf : Fin REFERERS.length)
    (p r : Except FetchExc Response) (hne : url.isEmpty = false) :
    USER_AGENTS.length = 5 ∧ REFERERS.length = 4 ∧
    randomChoice USER_AGENTS ua = USER_AGENTS.get ua ∧
    randomChoice REFERERS rf = REFERERS.get rf ∧
    (∀ req ∈ (fetch_page st (some url) ua rf p r).trace, req.kind = .primary →
      getHeader req.headers "User-Agent" = some (randomChoice USER_AGENTS ua) ∧
      getHeader req.headers "Referer" = some (randomChoice REFERERS rf)) := by
  refine ⟨rfl, rfl, rfl, rfl, ?_⟩
  intro req hreq hkind
  have goal1 : getHeader (updateHeaders st.scraper.headers (identityHeaders ua rf)) "User-Agent"
      = some (randomChoice USER_AGENTS ua) := getHeader_update_ua st.scraper.headers ua rf
  have goal2 : getHeader (updateHeaders st.scraper.headers (identityHeaders ua rf)) "Referer"
      = some (randomChoice REFERERS rf) := getHeader_update_referer st.scraper.headers ua rf
  cases p with
  | error e =>
    simp [fetch_page, hne] at hreq
    subst hreq
    exact ⟨goal1, goal2⟩
  | ok resp =>
    by_cases hc : is_cf_challenge resp.text
    · cases r with
      | error e =>
        simp [fetch_page, hne, hc] at hreq
        rcases hreq with rfl | rfl
        · exact ⟨goal1, goal2⟩
        · simp at hkind
      | ok resp2 =>
        simp [fetch_page, hne, hc] at hreq
        rcases hreq with rfl | rfl
        · exact ⟨goal1, goal2⟩
        · simp at hkind
    · simp [fetch_page, hne, hc] at hreq
      subst hreq
      exact ⟨goal1, goal2⟩

set_option maxHeartbeats 6400000 in
/-- Witness for C8: the primary GET of a concrete call carries the drawn
user-agent and referer. -/
theorem c8_identity_selection_witness :
    getHeader
      (updateHeaders initialState.scraper.headers
        (identityHeaders (⟨2, by decide⟩ : Fin USER_AGENTS.length)
          (⟨3, by decide⟩ : Fin REFERERS.length)))
      "User-Agent" = some (randomChoice USER_AGENTS ⟨2, by decide⟩) ∧
    getHeader
      (updateHeaders initialState.scraper.headers
        (identityHeaders (⟨2, by decide⟩ : Fin USER_AGENTS.length)
          (⟨3, by decide⟩ : Fin REFERERS.length)))
      "Referer" = some (randomChoice REFERERS ⟨3, by decide⟩) :=
  (c8_identity_selection initialState "https://example.com/" ⟨2, by decide⟩ ⟨3, by decide⟩
      (.ok { text := "ok", status_code := 200, url := "https://example.com/" })
      (.ok { text := "x", status_code := 200, url := "x" }) (by decide)).2.2.2.2
    { kind := .primary, profile := initialState.scraper.profile, url := "https://example.com/",
      timeout := 20,
      headers :=
        updateHeaders initialState.scraper.headers
          (identityHeaders ⟨2, by decide⟩ ⟨3, by decide⟩) }
    (by decide) rfl

/-- C9: the handler never branches on the origin's HTTP status: an origin
response that arrives without an exception — a 404 or 500 included — is
wrapped in a top-level HTTP 200 success envelope, the origin status merely
embedded in the `status_code` field. -/
theorem c9_origin_status_not_inspected (st : ServerState) (url : String)
    (ua : Fin USER_AGENTS.length) (rf : Fin REFERERS.length)
    (body surl : String) (sc : Nat) (r : Except FetchExc Response)
    (hne : url.isEmpty = false) :
    (is_cf_challenge body = false →
      (fetch_page st (some url) ua rf
        (.ok { text := body, status_code := sc, url := surl }) r).result =
        { code := 200, body := .success body sc surl body.length }) ∧
    (∀ b2 sc2 u2, is_cf_challenge body = true →
      r = .ok { text := b2, status_code := sc2, url := u2 } →
      (fetch_page st (some url) ua rf
        (.ok { text := body, status_code := sc, url := surl }) r).result =
        { code := 200, body := .success b2 sc2 u2 b2.length }) := by
  constructor
  · intro hc
    simp [fetch_page, hne, hc, successResult]
  · rintro b2 sc2 u2 hc rfl
    simp [fetch_page, hne, hc, successResult]

/-- Witness for C9: an origin 404 page still comes back as a top-level 200. -/
theorem c9_origin_status_not_inspected_witness :
    (fetch_page initialState (some "https://example.com/missing") ⟨0, by decide⟩ ⟨0, by decide⟩
      (.ok { text := "<html>not found</html>", status_code := 404,
             url := "https://example.com/missing" })
      (.ok { text := "x", status_code := 200, url := "x" })).result =
      { code := 200,
        body := .success "<html>not found</html>" 404 "https://example.com/missing"
          ("<html>not found</html>".length) } :=
  (c9_origin_status_not_inspected initialState "https://example.com/missing"
      ⟨0, by decide⟩ ⟨0, by decide⟩ "<html>not found</html>" "https://example.com/missing" 404
      (.ok { text := "x", status_code := 200, url := "x" }) (by decide)).1 (by decide)

/-- C10: when the challenge-triggered retry itself raises, the primary body is
discarded: the reply is exactly the exception envelope (503 or 500, an error
body), never a success envelope carrying the primary text. -/
theorem c10_retry_failure_discards_primary (st : ServerState) (url : String)
    (ua : Fin USER_AGENTS.length) (rf : Fin REFERERS.length)
    (resp : Response) (e : FetchExc)
    (hne : url.isEmpty = false) (hch : is_cf_challenge resp.text = true) :
    (fetch_page st (some url) ua rf (.ok resp) (.error e)).result = exceptionResult e ∧
    (∃ msg, (exceptionResult e).body = .error msg) ∧
    ((exceptionResult e).code = 503 ∨ (exceptionResult e).code = 500) ∧
    (∀ (h : String) (sc : Nat) (u : String) (n : Nat),
      (fetch_page st (some url) ua rf (.ok resp) (.error e)).result.body ≠
        .success h sc u n) := by
  have hres : (fetch_page st (some url) ua rf (.ok resp) (.error e)).result
      = exceptionResult e := by
    simp [fetch_page, hne, hch]
  refine ⟨hres, ?_, ?_, ?_⟩
  · cases e with
    | cloudflareChallenge d => exact ⟨_, rfl⟩
    | other m => exact ⟨_, rfl⟩
  · cases e with
    | cloudflareChallenge d => exact Or.inl rfl
    | other m => exact Or.inr rfl
  · intro h sc u n
    rw [hres]
    cases e with
    | cloudflareChallenge d => simp [exceptionResult]
    | other m => simp [exceptionResult]

/-- Witness for C10: a failing retry after a detected challenge at a concrete
input yields the 500 envelope, not the primary body. -/
theorem c10_retry_failure_discards_primary_witness :
    (fetch_page initialState (some "https://example.com/") ⟨0, by decide⟩ ⟨0, by decide⟩
      (.ok { text := "Checking your browser", status_code := 503, url := "u" })
      (.error (.other "Connection reset by peer"))).result =
      exceptionResult (.other "Connection reset by peer") :=
  (c10_retry_failure_discards_primary initialState "https://example.com/"
      ⟨0, by decide⟩ ⟨0, by decide⟩
      { text := "Checking your browser", status_code := 503, url := "u" }
      (.other "Connection reset by peer") (by decide) (by decide)).1

end ScraperProxy
